import Mathlib

/-!
Verification of the `cloudflare-tunnel` orchestrator (Go) against its
specification, through a shallow embedding in Lean.

The embedding follows the richest variant of the program (the one with a
`Route` list, protocol selection and API-key validation); external effects
are made explicit:
  * reading and JSON-unmarshalling a file is modelled by the parse outcome
    (`Option` of the parsed value; in Go a missing JSON field unmarshals to
    the zero value, so a missing string field is the empty string);
  * `log.Fatalf` (process termination) is modelled by `Except.error` or by a
    `fatalError` field of the run result;
  * the Cloudflare DNS zone is modelled by a state holding its records; the
    HTTP layer's possible outcomes (2xx with a body, transport error or
    non-2xx, unparseable body) are modelled by `APIOutcome`;
  * a Go panic (index out of range on `routes[0]`) is modelled by `none`;
  * subprocess invocations (`cloudflared` login / create / run, the SOCKS5
    relay) are recorded as events of the run trace; the final
    signal-then-wait shutdown is operating-system real time and is outside
    the embedding, which models a run up to the daemon launch.
-/

namespace CloudflareTunnel

/-- `DNSRecord` of the source: id, type, name and content ("value"). -/
structure DNSRecord where
  id : String
  type : String
  name : String
  value : String
  deriving DecidableEq

/-- `TunnelCredentials` of the source: AccountTag, TunnelSecret, TunnelID. -/
structure TunnelCredentials where
  accountTag : String
  tunnelSecret : String
  tunnelID : String
  deriving DecidableEq

/-- `APIKeys` of the source: ApiToken and ZoneId. -/
structure APIKeys where
  apiToken : String
  zoneID : String
  deriving DecidableEq

/-- `loadAPIKeys` over the outcome of reading and unmarshalling the API-keys
file (`none`: the file could not be read, or its contents did not parse).
After a successful parse the source rejects an empty `ApiToken` or `ZoneId`;
a field missing from the JSON unmarshals to `""`, so it is rejected too. -/
def loadAPIKeys (parsed : Option APIKeys) : Except String APIKeys :=
  match parsed with
  | none => Except.error "failed to read or unmarshal API keys file"
  | some keys =>
    if keys.apiToken = "" || keys.zoneID = "" then
      Except.error "ApiToken or ZoneId missing in API keys file"
    else
      Except.ok keys

/-- Hexadecimal digit, lower case, as Go's JSON encoder writes `\u00XX`. -/
def hexDigit (n : Nat) : Char :=
  if n < 10 then Char.ofNat (48 + n) else Char.ofNat (87 + n)

/-- Escaping of one character inside a JSON string, following Go's
`encoding/json` (HTML-escaping on, as in `json.Marshal`). -/
def jsonEscapeChar (c : Char) : String :=
  if c = '\x22' then "\\\x22"
  else if c = '\\' then "\\\\"
  else if c = '\n' then "\\n"
  else if c = '\r' then "\\r"
  else if c = '\t' then "\\t"
  else if c = '<' then "\\u003c"
  else if c = '>' then "\\u003e"
  else if c = '&' then "\\u0026"
  else if c.toNat < 32 then
    "\\u00" ++ String.singleton (hexDigit (c.toNat / 16))
      ++ String.singleton (hexDigit (c.toNat % 16))
  else String.singleton c

/-- Escaping of a whole string, character by character. -/
def jsonEscape (s : String) : String :=
  String.join (s.data.map jsonEscapeChar)

/-- A JSON string literal. -/
def jsonQuote (s : String) : String :=
  "\x22" ++ jsonEscape s ++ "\x22"

/-- `json.MarshalIndent(v, "", "  ")` on a flat object of string fields,
in the given field order (Go marshals struct fields in declaration order). -/
def marshalIndentObj (fields : List (String × String)) : String :=
  "\x7b\n"
    ++ String.intercalate ",\n"
        (fields.map (fun f => "  " ++ jsonQuote f.1 ++ ": " ++ jsonQuote f.2))
    ++ "\n\x7d"

/-- The fields of `TunnelCredentials`, in their declaration order
(`AccountTag`, `TunnelSecret`, `TunnelID`): the order `json.MarshalIndent`
serializes them in. -/
def credentialFields (creds : TunnelCredentials) : List (String × String) :=
  [("AccountTag", creds.accountTag),
   ("TunnelSecret", creds.tunnelSecret),
   ("TunnelID", creds.tunnelID)]

/-- A file write as issued: path, bytes, and the permission bits passed to
`os.WriteFile`. -/
structure FileWrite where
  path : String
  content : String
  mode : Nat
  deriving DecidableEq

/-- `saveCredentials`: marshal the credentials with `MarshalIndent` and write
them with permission bits `0600`. -/
def saveCredentials (filePath : String) (creds : TunnelCredentials) : FileWrite :=
  { path := filePath
    content := marshalIndentObj (credentialFields creds)
    mode := 0o600 }

/-- `Route` of the source: a hostname tied to a service URI. -/
structure Route where
  hostname : String
  service : String
  deriving DecidableEq

/-- The three header writes of `writeConfigFile`: the tunnel identity line,
the credentials-file line, and the `ingress:` line. One list entry per
`Fprintf`/`Fprintln`, each ending in the newline the source writes. -/
def headerChunks (tunnelID credentialsPath : String) : List String :=
  ["tunnel: " ++ tunnelID ++ "\n",
   "credentials-file: " ++ credentialsPath ++ "\n",
   "ingress:\n"]

/-- The per-route writes of `writeConfigFile`'s loop: a hostname line and a
service line for each route, in input order. -/
def routeChunks (routes : List Route) : List String :=
  routes.flatMap (fun r =>
    ["  - hostname: " ++ r.hostname ++ "\n",
     "    service: " ++ r.service ++ "\n"])

/-- The fallback service `writeConfigFile` selects by inspecting the first
route's scheme: `http_status:404` when that route's service starts with
`http://` or `https://`, else `tcp://localhost:0`. -/
def fallbackService (first : Route) : String :=
  if first.service.startsWith "http://" || first.service.startsWith "https://" then
    "http_status:404"
  else
    "tcp://localhost:0"

/-- `writeConfigFile` of the source: computes the config path from the tunnel
ID, writes the header, one block per route in input order, then reads
`routes[0]` unguarded to pick the fallback and writes one fallback line.
Result: the output path and the written chunks. On an empty routes list the
`routes[0]` access is out of range (a Go panic): modelled as `none`. -/
def writeConfigFile (tunnelID credentialsPath : String) (routes : List Route) :
    Option (String × List String) :=
  let configPath := "./" ++ tunnelID ++ "-config.yml"
  match routes with
  | [] => none
  | first :: _ =>
    some (configPath,
      headerChunks tunnelID credentialsPath ++ routeChunks routes
        ++ ["  - service: " ++ fallbackService first ++ "\n"])

/-- A chunk that is one of the two fallback lines the source can write. -/
def isFallbackChunk (c : String) : Bool :=
  c == "  - service: http_status:404\n" || c == "  - service: tcp://localhost:0\n"

/-- The DNS zone's state: the records it holds. -/
structure DNSState where
  records : List DNSRecord
  deriving DecidableEq

/-- The result set of `GET .../dns_records?name=<domain>`: the zone's records
whose name equals the domain exactly. -/
def dnsQuery (st : DNSState) (domain : String) : List DNSRecord :=
  st.records.filter (fun r => r.name == domain)

/-- The possible outcomes of `cloudflareAPIRequest` plus response parsing:
a 2xx response whose body parses to a result list; a transport error or a
non-2xx response (both returned as an error by `cloudflareAPIRequest`);
or a 2xx response whose body does not unmarshal. -/
inductive APIOutcome where
  | success (result : List DNSRecord)
  | failure (msg : String)
  | badBody
  deriving DecidableEq

/-- `dnsRecordExists` of the source over the API outcome: on an error from
`cloudflareAPIRequest` (transport error or non-2xx) or an unparseable body it
calls `log.Fatalf` — modelled as `Except.error`, process termination; on a
parsed response it returns `len(result.Result) > 0`. -/
def dnsRecordExists : APIOutcome → Except String Bool
  | .failure msg => Except.error ("Failed to query DNS record: " ++ msg)
  | .badBody => Except.error "Failed to parse DNS record response"
  | .success result => Except.ok (decide (result.length > 0))

/-- The value `dnsRecordExists` returns when the DNS API answers the
name-filtered lookup from the zone state. -/
def recordPresent (st : DNSState) (domain : String) : Bool :=
  decide ((dnsQuery st domain).length > 0)

/-- `ensureDNSRecord` of the source over a responsive DNS API, with the zone
state threaded explicitly: it first performs the existence check and returns
at once when the record is present; otherwise it constructs a CNAME record
named after the domain and pointing at `<tunnelID>.cfargotunnel.com` and
issues one create call. The second component counts the create calls
issued. -/
def ensureDNSRecord (st : DNSState) (domain tunnelID : String) :
    DNSState × Nat :=
  if recordPresent st domain then (st, 0)
  else
    ({ records := st.records
        ++ [{ id := "", type := "CNAME", name := domain,
              value := tunnelID ++ ".cfargotunnel.com" }] }, 1)

/-- One observable external action of a run: a subprocess invocation or a
DNS API call. -/
inductive Event where
  | authenticate
  | createTunnel (name credentialsPath : String)
  | saveCreds (path : String)
  | dnsList (domain : String)
  | dnsCreate (record : DNSRecord)
  | startSocks5 (port : Int)
  | startTunnel (configPath : String)
  deriving DecidableEq

/-- The CLI flags of the source (`flag.Int` accepts any integer, hence `Int`
for the ports). -/
structure Flags where
  port : Int
  tunnelName : String
  domain : String
  credentialsPath : String
  protocol : String
  socks5Port : Int
  proxyDomain : String
  deriving DecidableEq

/-- The run's environment: the parse outcomes of the two JSON files, whether
the previously generated config file exists, whether the external
authentication subprocess succeeds, the credentials file the external
creation step leaves behind (`none` when that subprocess fails or the file
does not parse back), whether the credentials write succeeds, whether the
DNS API answers requests this run, and the zone's state. -/
structure World where
  parsedAPIKeys : Option APIKeys
  parsedCreds : Option TunnelCredentials
  configFileExists : Bool
  authOk : Bool
  createdCreds : Option TunnelCredentials
  saveOk : Bool
  dnsApiOk : Bool
  dns : DNSState
  deriving DecidableEq

/-- The outcome of a run: the recorded external actions, the config path in
use once the run reaches the daemon launch, and the fatal error that ended
the run early, if any (`log.Fatalf`, or the panic on `routes[0]`). -/
structure RunResult where
  events : List Event
  configPath : Option String
  fatalError : Option String
  deriving DecidableEq

/-- The credential-resolution step of `main`: reuse the parsed credentials
file unconditionally when it parses; otherwise authenticate, create the
tunnel externally, read the credentials back and save them. Each subprocess
invocation is recorded even when it fails. -/
def provisionCredentials (fl : Flags) (w : World) :
    List Event × Except String TunnelCredentials :=
  match w.parsedCreds with
  | some creds => ([], Except.ok creds)
  | none =>
    if w.authOk = false then
      ([Event.authenticate], Except.error "Cloudflare authentication failed")
    else
      match w.createdCreds with
      | none =>
        ([Event.authenticate,
          Event.createTunnel fl.tunnelName fl.credentialsPath],
         Except.error "Failed to create tunnel")
      | some creds =>
        if w.saveOk then
          ([Event.authenticate,
            Event.createTunnel fl.tunnelName fl.credentialsPath,
            Event.saveCreds fl.credentialsPath],
           Except.ok creds)
        else
          ([Event.authenticate,
            Event.createTunnel fl.tunnelName fl.credentialsPath,
            Event.saveCreds fl.credentialsPath],
           Except.error "Failed to save credentials")

/-- One `ensureDNSRecord` call inside the run: the name-filtered GET is
recorded; when the API does not answer (transport error or non-2xx) the run
dies; when the record is absent the CNAME create POST is recorded and the
zone gains the record. -/
def ensureStep (apiOk : Bool) (st : DNSState) (domain tunnelID : String) :
    List Event × Except String DNSState :=
  if apiOk = false then
    ([Event.dnsList domain], Except.error "Failed to query DNS record")
  else if recordPresent st domain then
    ([Event.dnsList domain], Except.ok st)
  else
    ([Event.dnsList domain,
      Event.dnsCreate
        { id := "", type := "CNAME", name := domain,
          value := tunnelID ++ ".cfargotunnel.com" }],
     Except.ok { records := st.records
        ++ [{ id := "", type := "CNAME", name := domain,
              value := tunnelID ++ ".cfargotunnel.com" }] })

/-- The protocol switch of `main`: `http` and `tcp` build one route for the
domain; `all` requires a proxy domain, ensures its DNS record, and builds
the TCP route plus the relay route; any other protocol is fatal. -/
def routesStep (fl : Flags) (apiOk : Bool) (st : DNSState) (tunnelID : String) :
    List Event × Except String (DNSState × List Route) :=
  if fl.protocol == "http" then
    ([], Except.ok (st, [⟨fl.domain, "http://localhost:" ++ toString fl.port⟩]))
  else if fl.protocol == "tcp" then
    ([], Except.ok (st, [⟨fl.domain, "tcp://localhost:" ++ toString fl.port⟩]))
  else if fl.protocol == "all" then
    if fl.proxyDomain == "" then
      ([], Except.error "proxy-domain is required when protocol=all")
    else
      match ensureStep apiOk st fl.proxyDomain tunnelID with
      | (ev, Except.error e) => (ev, Except.error e)
      | (ev, Except.ok st2) =>
        (ev, Except.ok (st2,
          [⟨fl.domain, "tcp://localhost:" ++ toString fl.port⟩,
           ⟨fl.proxyDomain, "tcp://localhost:" ++ toString fl.socks5Port⟩]))
  else
    ([], Except.error ("Unsupported protocol: " ++ fl.protocol))

/-- `main` of the source. Missing required flags: reuse the previous config
(by the tunnel ID of the parsed credentials) and just start the daemon.
Otherwise: load and validate the API keys, resolve credentials, ensure the
DNS record, build the routes (ensuring the proxy record for `all`), write
the config, optionally start the relay, and start the daemon. Every
`log.Fatalf` ends the run with a fatal error and no further actions. -/
def mainRun (fl : Flags) (w : World) : RunResult :=
  if fl.port == 0 || fl.tunnelName == "" || fl.domain == "" then
    match w.parsedCreds with
    | none =>
      { events := [], configPath := none,
        fatalError := some "Previous configuration not found" }
    | some creds =>
      let cfg := "./" ++ creds.tunnelID ++ "-config.yml"
      if w.configFileExists then
        { events := [Event.startTunnel cfg], configPath := some cfg,
          fatalError := none }
      else
        { events := [], configPath := none,
          fatalError := some ("Config " ++ cfg ++ " not found") }
  else
    match loadAPIKeys w.parsedAPIKeys with
    | Except.error e =>
      { events := [], configPath := none,
        fatalError := some ("Failed to load API keys: " ++ e) }
    | Except.ok _keys =>
      match provisionCredentials fl w with
      | (ev1, Except.error e) =>
        { events := ev1, configPath := none, fatalError := some e }
      | (ev1, Except.ok creds) =>
        match ensureStep w.dnsApiOk w.dns fl.domain creds.tunnelID with
        | (ev2, Except.error e) =>
          { events := ev1 ++ ev2, configPath := none, fatalError := some e }
        | (ev2, Except.ok st1) =>
          match routesStep fl w.dnsApiOk st1 creds.tunnelID with
          | (ev3, Except.error e) =>
            { events := ev1 ++ ev2 ++ ev3, configPath := none,
              fatalError := some e }
          | (ev3, Except.ok (_st2, routes)) =>
            match writeConfigFile creds.tunnelID fl.credentialsPath routes with
            | none =>
              { events := ev1 ++ ev2 ++ ev3, configPath := none,
                fatalError := some "panic: runtime error: index out of range" }
            | some (cfgPath, _chunks) =>
              let ev4 := if fl.protocol == "all" then
                  [Event.startSocks5 fl.socks5Port] else []
              { events := ev1 ++ ev2 ++ ev3 ++ ev4 ++ [Event.startTunnel cfgPath],
                configPath := some cfgPath, fatalError := none }

/-- The observable discipline of a run that reuses a cached identity `c`:
it never authenticates, never creates a tunnel, and any daemon launch uses
the config path derived from `c`'s tunnel ID. -/
def reusePolicyOk (c : TunnelCredentials) : Event → Bool
  | Event.authenticate => false
  | Event.createTunnel _ _ => false
  | Event.startTunnel p => p == "./" ++ c.tunnelID ++ "-config.yml"
  | _ => true

theorem ne_of_data_getElem (a b : String) (i : Nat)
    (h : a.data[i]? ≠ b.data[i]?) : a ≠ b :=
  fun e => h (by rw [e])

theorem isFallbackChunk_eq_false (c : String)
    (h1 : c ≠ "  - service: http_status:404\n")
    (h2 : c ≠ "  - service: tcp://localhost:0\n") :
    isFallbackChunk c = false := by
  simp only [isFallbackChunk, Bool.or_eq_false_iff, beq_eq_false_iff_ne, ne_eq]
  exact ⟨h1, h2⟩

/-- A chunk written by `Fprintf` as a literal head followed by arbitrary text
differs from any string whose character at a position inside the head
differs. -/
theorem chunk_ne (head s tail b : String) (i : Nat) (c : Char)
    (hhead : head.data[i]? = some c) (hb : b.data[i]? ≠ some c)
    (hi : i < head.data.length) : head ++ s ++ tail ≠ b := by
  apply ne_of_data_getElem _ _ i
  rw [String.data_append, String.data_append, List.append_assoc,
    List.getElem?_append, if_pos hi, hhead]
  exact fun e => hb e.symm

theorem isFallbackChunk_tunnel (s : String) :
    isFallbackChunk ("tunnel: " ++ s ++ "\n") = false := by
  apply isFallbackChunk_eq_false
  · exact chunk_ne "tunnel: " s "\n" _ 0 't' rfl (by decide) (by decide)
  · exact chunk_ne "tunnel: " s "\n" _ 0 't' rfl (by decide) (by decide)

theorem isFallbackChunk_credfile (s : String) :
    isFallbackChunk ("credentials-file: " ++ s ++ "\n") = false := by
  apply isFallbackChunk_eq_false
  · exact chunk_ne "credentials-file: " s "\n" _ 0 'c' rfl (by decide) (by decide)
  · exact chunk_ne "credentials-file: " s "\n" _ 0 'c' rfl (by decide) (by decide)

theorem isFallbackChunk_hostname (s : String) :
    isFallbackChunk ("  - hostname: " ++ s ++ "\n") = false := by
  apply isFallbackChunk_eq_false
  · exact chunk_ne "  - hostname: " s "\n" _ 4 'h' rfl (by decide) (by decide)
  · exact chunk_ne "  - hostname: " s "\n" _ 4 'h' rfl (by decide) (by decide)

theorem isFallbackChunk_routeService (s : String) :
    isFallbackChunk ("    service: " ++ s ++ "\n") = false := by
  apply isFallbackChunk_eq_false
  · exact chunk_ne "    service: " s "\n" _ 2 ' ' rfl (by decide) (by decide)
  · exact chunk_ne "    service: " s "\n" _ 2 ' ' rfl (by decide) (by decide)

/-- No header chunk is a fallback chunk. -/
theorem headerChunks_no_fallback (tunnelID credentialsPath : String) :
    (headerChunks tunnelID credentialsPath).filter isFallbackChunk = [] := by
  simp [headerChunks, List.filter, isFallbackChunk_tunnel, isFallbackChunk_credfile]
  rfl

/-- No per-route chunk is a fallback chunk. -/
theorem routeChunks_no_fallback (routes : List Route) :
    (routeChunks routes).filter isFallbackChunk = [] := by
  induction routes with
  | nil => rfl
  | cons r rs ih =>
    simp [routeChunks, List.filter, isFallbackChunk_hostname,
      isFallbackChunk_routeService, ih]

/-- C1: for every non-empty routes list, `writeConfigFile` emits exactly one
fallback rule, chosen by inspecting only the first route's service scheme:
when the first route's service begins with `http://` or `https://` the
fallback line is the HTTP-404 responder (`http_status:404`), otherwise it is
the protocol-level reject rule (`tcp://localhost:0`). -/
theorem writeConfigFile_fallback_selection (tunnelID credentialsPath : String)
    (first : Route) (rest : List Route) :
    ∃ chunks,
      writeConfigFile tunnelID credentialsPath (first :: rest)
        = some ("./" ++ tunnelID ++ "-config.yml", chunks)
      ∧ (chunks.filter isFallbackChunk).length = 1
      ∧ chunks.getLast?
          = some (if first.service.startsWith "http://"
                    || first.service.startsWith "https://" then
                    "  - service: http_status:404\n"
                  else
                    "  - service: tcp://localhost:0\n") := by
  refine ⟨_, rfl, ?_, ?_⟩
  · rw [List.filter_append, List.filter_append, headerChunks_no_fallback,
      routeChunks_no_fallback]
    by_cases h : first.service.startsWith "http://" || first.service.startsWith "https://" <;>
      simp [fallbackService, h] <;> decide
  · rw [List.getLast?_concat]
    by_cases h : first.service.startsWith "http://" || first.service.startsWith "https://" <;>
      simp [fallbackService, h]

/-- C5 (amended to non-empty routes lists): the writer's output path is
`./<tunnelID>-config.yml`, independent of the route content; in particular
tunnel ID `abc123` always yields `./abc123-config.yml`. -/
theorem writeConfigFile_path_deterministic (tunnelID credentialsPath : String)
    (first : Route) (rest : List Route) :
    (writeConfigFile tunnelID credentialsPath (first :: rest)).map Prod.fst
      = some ("./" ++ tunnelID ++ "-config.yml")
    ∧ (writeConfigFile "abc123" credentialsPath (first :: rest)).map Prod.fst
      = some "./abc123-config.yml" :=
  ⟨rfl, rfl⟩

/-- C5, counterexample to the claim as stated ("for every routes list"): on
the empty routes list the writer's `routes[0]` access is out of range and no
path is returned. -/
theorem writeConfigFile_empty_routes_abc123 :
    writeConfigFile "abc123" "./credentials.json" [] = none := rfl

/-- C7 (amended to non-empty routes lists): the generated config is, in
order, the tunnel identity line, the credentials-file line, the `ingress:`
header, one hostname/service block per route in input order, and exactly one
fallback line; nothing else. -/
theorem writeConfigFile_structure (tunnelID credentialsPath : String)
    (first : Route) (rest : List Route) :
    writeConfigFile tunnelID credentialsPath (first :: rest)
      = some ("./" ++ tunnelID ++ "-config.yml",
          ["tunnel: " ++ tunnelID ++ "\n",
           "credentials-file: " ++ credentialsPath ++ "\n",
           "ingress:\n"]
          ++ (first :: rest).flatMap (fun r =>
               ["  - hostname: " ++ r.hostname ++ "\n",
                "    service: " ++ r.service ++ "\n"])
          ++ ["  - service: " ++ fallbackService first ++ "\n"]) := rfl

/-- C7, counterexample to the claim as stated ("for every routes list"): on
the empty routes list the writer panics at `routes[0]` before the fallback
line is written, so no config with a fallback line is produced. -/
theorem writeConfigFile_empty_routes_no_config :
    writeConfigFile "t1" "./credentials.json" [] = none := rfl

/-- C2: `ensureDNSRecord` issues at most one create call per run; when the
record already exists it returns without changing anything and without a
create call; and a second invocation for the hostname bound by the first is
a no-op. -/
theorem ensureDNSRecord_idempotent (st : DNSState) (domain tunnelID : String) :
    (ensureDNSRecord st domain tunnelID).2 ≤ 1
    ∧ ensureDNSRecord (ensureDNSRecord st domain tunnelID).1 domain tunnelID
        = ((ensureDNSRecord st domain tunnelID).1, 0)
    ∧ (recordPresent st domain = true →
        ensureDNSRecord st domain tunnelID = (st, 0)) := by
  have hpres : ∀ s : DNSState, recordPresent s domain = true →
      ensureDNSRecord s domain tunnelID = (s, 0) := by
    intro s hs
    simp [ensureDNSRecord, hs]
  by_cases h : recordPresent st domain
  · refine ⟨?_, ?_, fun _ => hpres st h⟩ <;> simp [ensureDNSRecord, h]
  · have hafter : recordPresent
        (ensureDNSRecord st domain tunnelID).1 domain = true := by
      simp only [ensureDNSRecord, if_neg h]
      simp [recordPresent, dnsQuery, List.filter_append]
    refine ⟨?_, hpres _ hafter, fun hc => absurd hc h⟩
    simp [ensureDNSRecord, h]

/-- C6: when the API answers the name-filtered lookup, `dnsRecordExists`
returns `true` exactly when the zone holds a record with that name; on a
transport error or non-2xx response it never returns a boolean — the error
branch terminates the process. -/
theorem dnsRecordExists_spec (st : DNSState) (domain msg : String) :
    (dnsRecordExists (APIOutcome.success (dnsQuery st domain)) = Except.ok true
      ↔ ∃ r, r ∈ st.records ∧ r.name = domain)
    ∧ (∀ b : Bool, dnsRecordExists (APIOutcome.failure msg) ≠ Except.ok b) := by
  constructor
  · simp only [dnsRecordExists, Except.ok.injEq, decide_eq_true_eq, dnsQuery]
    rw [gt_iff_lt, List.length_pos_iff_exists_mem]
    constructor
    · rintro ⟨r, hr⟩
      rw [List.mem_filter] at hr
      exact ⟨r, hr.1, by simpa using hr.2⟩
    · rintro ⟨r, hr, hname⟩
      exact ⟨r, List.mem_filter.mpr ⟨hr, by simpa using hname⟩⟩
  · intro b
    simp [dnsRecordExists]

/-- C8: when the record is absent, `ensureDNSRecord` submits exactly one
record, of type CNAME, named after the requested hostname, whose value is the
tunnel ID concatenated with `.cfargotunnel.com`. -/
theorem ensureDNSRecord_creates_cname (st : DNSState) (domain tunnelID : String)
    (h : recordPresent st domain = false) :
    ensureDNSRecord st domain tunnelID
      = ({ records := st.records
            ++ [{ id := "", type := "CNAME", name := domain,
                  value := tunnelID ++ ".cfargotunnel.com" }] }, 1) := by
  simp [ensureDNSRecord, h]

/-- C8, witness: on the empty zone and concrete inputs the created record is
the expected CNAME. -/
theorem ensureDNSRecord_creates_cname_witness :
    ensureDNSRecord ⟨[]⟩ "a.test" "tid1"
      = ({ records := [{ id := "",
                         type := "CNAME",
                         name := "a.test",
                         value := "tid1" ++ ".cfargotunnel.com" }] }, 1) :=
  ensureDNSRecord_creates_cname ⟨[]⟩ "a.test" "tid1" (by decide)

/-- C9: `saveCredentials` passes owner-only permission bits `0600` to the
file write, serializes the fields in the fixed declaration order
`AccountTag`, `TunnelSecret`, `TunnelID`, and the written bytes depend only
on the identity's field values. -/
theorem saveCredentials_spec (filePath : String) (c c2 : TunnelCredentials)
    (hTag : c.accountTag = c2.accountTag)
    (hSec : c.tunnelSecret = c2.tunnelSecret)
    (hID : c.tunnelID = c2.tunnelID) :
    (saveCredentials filePath c).mode = 0o600
    ∧ (saveCredentials filePath c).content = (saveCredentials filePath c2).content
    ∧ (credentialFields c).map Prod.fst
        = ["AccountTag", "TunnelSecret", "TunnelID"] := by
  refine ⟨rfl, ?_, rfl⟩
  simp [saveCredentials, credentialFields, hTag, hSec, hID]

/-- C9, witness: concrete identity, concrete path. -/
theorem saveCredentials_spec_witness :
    (saveCredentials "./credentials.json" ⟨"tag1", "secret1", "tid1"⟩).mode = 0o600
    ∧ (saveCredentials "./credentials.json" ⟨"tag1", "secret1", "tid1"⟩).content
        = (saveCredentials "./credentials.json" ⟨"tag1", "secret1", "tid1"⟩).content
    ∧ (credentialFields ⟨"tag1", "secret1", "tid1"⟩).map Prod.fst
        = ["AccountTag", "TunnelSecret", "TunnelID"] :=
  saveCredentials_spec "./credentials.json" ⟨"tag1", "secret1", "tid1"⟩
    ⟨"tag1", "secret1", "tid1"⟩ rfl rfl rfl

/-- Every event a DNS reconciliation step records respects the reuse
discipline (it is a DNS call, not a provisioning subprocess). -/
theorem ensureStep_all_reuse (c : TunnelCredentials) (apiOk : Bool)
    (st : DNSState) (domain tunnelID : String) :
    (ensureStep apiOk st domain tunnelID).1.all (reusePolicyOk c) = true := by
  unfold ensureStep
  split_ifs <;> simp [reusePolicyOk]

/-- Every event the route-building step records respects the reuse
discipline. -/
theorem routesStep_all_reuse (c : TunnelCredentials) (fl : Flags) (apiOk : Bool)
    (st : DNSState) (tunnelID : String) :
    (routesStep fl apiOk st tunnelID).1.all (reusePolicyOk c) = true := by
  unfold routesStep
  split_ifs <;> try simp [reusePolicyOk]
  rcases h : ensureStep apiOk st fl.proxyDomain tunnelID with ⟨ev, r⟩
  have hev := ensureStep_all_reuse c apiOk st fl.proxyDomain tunnelID
  rw [h] at hev
  cases r <;> simpa using hev

/-- When `writeConfigFile` returns, the returned path is derived from the
tunnel ID alone. -/
theorem writeConfigFile_some_path (tunnelID credentialsPath : String)
    (routes : List Route) (p : String) (chunks : List String)
    (h : writeConfigFile tunnelID credentialsPath routes = some (p, chunks)) :
    p = "./" ++ tunnelID ++ "-config.yml" := by
  cases routes with
  | nil => simp [writeConfigFile] at h
  | cons a l =>
    simp only [writeConfigFile, Option.some.injEq, Prod.mk.injEq] at h
    exact h.1.symm

/-- C3: whenever the credentials file parses (to any identity `c`, its field
contents are not validated), the orchestrator reuses `c` unconditionally:
the run performs zero authentication and zero tunnel-creation subprocess
calls, and any daemon launch uses the config path derived from `c`'s tunnel
ID. -/
theorem credential_reuse (fl : Flags) (w : World) (c : TunnelCredentials)
    (h : w.parsedCreds = some c) :
    (mainRun fl w).events.all (reusePolicyOk c) = true := by
  have hprov : provisionCredentials fl w = ([], Except.ok c) := by
    simp [provisionCredentials, h]
  unfold mainRun
  cases hb : (fl.port == 0 || fl.tunnelName == "" || fl.domain == "") with
  | true =>
    rw [if_pos rfl, h]
    by_cases hcfg : w.configFileExists <;> simp [hcfg, reusePolicyOk]
  | false =>
    rw [if_neg Bool.false_ne_true]
    cases hk : loadAPIKeys w.parsedAPIKeys with
    | error e => simp
    | ok keys =>
      rw [hprov]
      dsimp only []
      rcases h2 : ensureStep w.dnsApiOk w.dns fl.domain c.tunnelID with ⟨ev2, r2⟩
      have hev2 := ensureStep_all_reuse c w.dnsApiOk w.dns fl.domain c.tunnelID
      rw [h2] at hev2
      simp only at hev2
      cases r2 with
      | error e2 => simpa using hev2
      | ok st1 =>
        dsimp only []
        rcases h3 : routesStep fl w.dnsApiOk st1 c.tunnelID with ⟨ev3, r3⟩
        have hev3 := routesStep_all_reuse c fl w.dnsApiOk st1 c.tunnelID
        rw [h3] at hev3
        simp only at hev3
        cases r3 with
        | error e3 => simp [List.all_append, hev2, hev3]
        | ok pr =>
          rcases pr with ⟨st2, routes⟩
          dsimp only []
          rcases hw : writeConfigFile c.tunnelID fl.credentialsPath routes with _ | ⟨p, chunks⟩
          · simp [List.all_append, hev2, hev3]
          · have hp := writeConfigFile_some_path c.tunnelID fl.credentialsPath
              routes p chunks hw
            cases hps : (fl.protocol == "all") <;>
              simp [List.all_append, hev2, hev3, reusePolicyOk, hp, hps]

/-- C3, witness: a pre-populated credentials file parsing to an identity with
every field empty (no field validation) is reused; the concrete run's trace
holds no authentication and no tunnel creation. -/
theorem credential_reuse_witness :
    (mainRun ⟨8080, "my-tunnel", "a.test", "./credentials.json", "http", 1080, ""⟩
        ⟨some ⟨"tok1", "zone1"⟩, some ⟨"", "", ""⟩, true, true, none, true, true, ⟨[]⟩⟩).events.all
      (reusePolicyOk ⟨"", "", ""⟩) = true :=
  credential_reuse
    ⟨8080, "my-tunnel", "a.test", "./credentials.json", "http", 1080, ""⟩
    ⟨some ⟨"tok1", "zone1"⟩, some ⟨"", "", ""⟩, true, true, none, true, true, ⟨[]⟩⟩
    ⟨"", "", ""⟩ rfl

/-- C4: loading the API keys fails with an error whenever the file cannot be
parsed or the `ApiToken` or `ZoneId` field is empty or missing; a run with
the required flags set then dies before any external call — in particular
before any DNS network call — is attempted. -/
theorem loadAPIKeys_failfast (fl : Flags) (w : World)
    (hport : ¬fl.port = 0) (hname : ¬fl.tunnelName = "") (hdom : ¬fl.domain = "")
    (hbad : w.parsedAPIKeys = none
        ∨ ∃ k, w.parsedAPIKeys = some k ∧ (k.apiToken = "" ∨ k.zoneID = "")) :
    (∃ e, loadAPIKeys w.parsedAPIKeys = Except.error e)
    ∧ (mainRun fl w).events = [] ∧ (mainRun fl w).fatalError ≠ none := by
  obtain ⟨e, he⟩ : ∃ e, loadAPIKeys w.parsedAPIKeys = Except.error e := by
    rcases hbad with hnone | ⟨k, hk, hf⟩
    · refine ⟨"failed to read or unmarshal API keys file", ?_⟩
      rw [hnone]
      rfl
    · rw [hk]
      refine ⟨"ApiToken or ZoneId missing in API keys file", ?_⟩
      rcases hf with h1 | h1 <;> simp [loadAPIKeys, h1]
  have hcond : (fl.port == 0 || fl.tunnelName == "" || fl.domain == "") = false := by
    simp [hport, hname, hdom]
  have hmain : mainRun fl w
      = ⟨[], none, some ("Failed to load API keys: " ++ e)⟩ := by
    unfold mainRun
    rw [hcond, if_neg Bool.false_ne_true, he]
  exact ⟨⟨e, he⟩, by rw [hmain], by rw [hmain]; simp⟩

/-- C4, witness: an API-keys file whose `ApiToken` field is missing (so it
unmarshals to the empty string) makes the concrete run fail with an empty
trace. -/
theorem loadAPIKeys_failfast_witness :
    (∃ e, loadAPIKeys (some ⟨"", "zone1"⟩) = Except.error e)
    ∧ (mainRun ⟨8080, "my-tunnel", "a.test", "./credentials.json", "http", 1080, ""⟩
        ⟨some ⟨"", "zone1"⟩, none, false, true, none, true, true, ⟨[]⟩⟩).events = []
    ∧ (mainRun ⟨8080, "my-tunnel", "a.test", "./credentials.json", "http", 1080, ""⟩
        ⟨some ⟨"", "zone1"⟩, none, false, true, none, true, true, ⟨[]⟩⟩).fatalError ≠ none :=
  loadAPIKeys_failfast
    ⟨8080, "my-tunnel", "a.test", "./credentials.json", "http", 1080, ""⟩
    ⟨some ⟨"", "zone1"⟩, none, false, true, none, true, true, ⟨[]⟩⟩
    (by decide) (by decide) (by decide)
    (Or.inr ⟨⟨"", "zone1"⟩, rfl, Or.inl rfl⟩)

/-- C10: the config writer is only safe under the precondition that the
routes list is non-empty — on the empty list its unguarded `routes[0]` read
is out of range and no result is produced — and every call site satisfies
the precondition: the protocol switch that feeds the writer only ever
produces a non-empty routes list, on which the writer succeeds. -/
theorem writeConfigFile_nonempty_precondition (tunnelID credentialsPath : String)
    (fl : Flags) (apiOk : Bool) (st stR : DNSState) (ev : List Event)
    (routes : List Route)
    (h : routesStep fl apiOk st tunnelID = (ev, Except.ok (stR, routes))) :
    writeConfigFile tunnelID credentialsPath [] = none
    ∧ routes ≠ []
    ∧ (writeConfigFile tunnelID credentialsPath routes).isSome = true := by
  have hne : routes ≠ [] := by
    unfold routesStep at h
    split_ifs at h
    · simp only [Prod.mk.injEq, Except.ok.injEq] at h
      rw [← h.2.2]
      simp
    · simp only [Prod.mk.injEq, Except.ok.injEq] at h
      rw [← h.2.2]
      simp
    · simp at h
    · rcases he : ensureStep apiOk st fl.proxyDomain tunnelID with ⟨ev2, r2⟩
      rw [he] at h
      cases r2 with
      | error e2 => simp at h
      | ok st2 =>
        simp only [Prod.mk.injEq, Except.ok.injEq] at h
        rw [← h.2.2]
        simp
    · simp at h
  refine ⟨rfl, hne, ?_⟩
  cases routes with
  | nil => exact absurd rfl hne
  | cons a l => rfl

/-- C10, witness: the `http` protocol branch produces one route, and the
writer succeeds on it, while the empty list produces no config. -/
theorem writeConfigFile_nonempty_precondition_witness :
    writeConfigFile "tid1" "./credentials.json" [] = none
    ∧ [Route.mk "a.test" ("http://localhost:" ++ toString (8080 : Int))] ≠ []
    ∧ (writeConfigFile "tid1" "./credentials.json"
        [Route.mk "a.test" ("http://localhost:" ++ toString (8080 : Int))]).isSome = true :=
  writeConfigFile_nonempty_precondition "tid1" "./credentials.json"
    ⟨8080, "my-tunnel", "a.test", "./credentials.json", "http", 1080, ""⟩
    true ⟨[]⟩ ⟨[]⟩ []
    [Route.mk "a.test" ("http://localhost:" ++ toString (8080 : Int))] rfl

end CloudflareTunnel
